import Mathlib

/-!
Verification development for the travel-booking fragment: the payment
verification endpoint (`verify_payment_view`), the booking creation hook
(`BookingViewSet.perform_create`) and the booking confirmation task
(`send_booking_confirmation_email`), shallowly embedded as pure functions
over explicit database / event-trace state.
-/

/-- Modelled from the spec: the `Payment` model (its `models.py` is not part of
this fragment). Fields per spec §3: an identifier, a `booking_reference`
lookup key, a free-text `status`, and an `amount`. -/
structure Payment where
  id : Nat
  booking_reference : String
  status : String
  amount : Int
deriving DecidableEq

/-- The nested object under the gateway response's "data" key, with an
optional "status" field. -/
structure GatewayData where
  status : Option String
deriving DecidableEq

/-- The external gateway's structured response: an optional "data" object.
The gateway itself is an external collaborator, passed in as a function. -/
structure GatewayResp where
  data : Option GatewayData
deriving DecidableEq

/-- Embeds `response_data.get("data", \x7b\x7d).get("status", "failed")`:
extract the nested status, defaulting to "failed" when absent at any level. -/
def extractStatus (r : GatewayResp) : String :=
  match r.data with
  | none => "failed"
  | some d => d.status.getD "failed"

/-- The verification request's query parameters. `request.GET.get` returns
`None` for an absent key, so both are `Option`. -/
structure VerifyRequest where
  tx_ref : Option String
  email : Option String
deriving DecidableEq

/-- Payload of an enqueued `send_payment_confirmation_email.delay` call:
the four positional arguments. The reference is the raw `tx_ref` value. -/
structure PaymentEmailJob where
  email : String
  reference : Option String
  amount : Int
  status : String
deriving DecidableEq

/-- A `JsonResponse`, flattened to its HTTP status code and its top-level
JSON object as a key/value list. -/
structure HttpResponse where
  statusCode : Nat
  body : List (String × String)
deriving DecidableEq

/-- Everything observable after one call of the verification view: the
database after the call, the references the gateway was called with, the
enqueued jobs, and the HTTP response. -/
structure VerifyResult where
  db : List Payment
  gatewayCalls : List (Option String)
  jobs : List PaymentEmailJob
  response : HttpResponse
deriving DecidableEq

/-- Embeds `payment.save()`: write the row back to the table, replacing the
stored row(s) with the same primary key `id`. -/
def savePayment (db : List Payment) (p : Payment) : List Payment :=
  db.map (fun q => if q.id == p.id then p else q)

/-- The status the view writes back, from the extracted gateway status:
embeds the conditional "Completed" if status == "success" else "Failed". -/
def settledStatus (s : String) : String :=
  if s == "success" then "Completed" else "Failed"

/-- Embeds `verify_payment_view` from `listings/views.py`. The database is
the list of `Payment` rows in table order; `Payment.objects.filter(...).first()`
is `List.find?`; the external `verify_payment` collaborator is the `gateway`
argument, and each call to it is recorded in `gatewayCalls`. -/
def verify_payment_view (gateway : Option String → GatewayResp)
    (db : List Payment) (req : VerifyRequest) : VerifyResult :=
  match db.find? (fun p => some p.booking_reference == req.tx_ref) with
  | none => ⟨db, [], [], ⟨404, [("error", "Payment not found")]⟩⟩
  | some payment =>
    let status := extractStatus (gateway req.tx_ref)
    let payment2 := { payment with status := settledStatus status }
    ⟨savePayment db payment2, [req.tx_ref],
     [⟨req.email.getD "user@example.com", req.tx_ref, payment2.amount, payment2.status⟩],
     ⟨200, [("status", payment2.status)]⟩⟩

/-- Modelled from the spec: a customer has an email attribute
(the `Booking` model itself is not part of this fragment). -/
structure Customer where
  email : String
deriving DecidableEq

/-- Modelled from the spec: a booking record with an identifier and a
reference to its customer. -/
structure Booking where
  id : Nat
  customer : Customer
deriving DecidableEq

/-- The side effects `perform_create` can produce, in order of occurrence. -/
inductive BookingEvent where
  | saveBooking (b : Booking)
  | enqueueBookingEmail (to_email : String) (booking_id : Nat)
deriving DecidableEq

/-- Embeds `BookingViewSet.perform_create`: `serializer.save()` yields the
created booking `b` (the serializer is an external collaborator), then one
`send_booking_confirmation_email.delay(booking.customer.email, booking.id)`
is enqueued. The result is the ordered trace of side effects. -/
def perform_create (b : Booking) : List BookingEvent :=
  [.saveBooking b, .enqueueBookingEmail b.customer.email b.id]

/-- One invocation of the mail collaborator `send_mail`, with its four
positional arguments. -/
structure MailCall where
  subject : String
  message : String
  from_email : String
  recipient_list : List String
deriving DecidableEq

/-- Outcome of a call to the mail collaborator: normal return or a raised
exception carrying a description. -/
inductive MailResult where
  | ok
  | raised (e : String)
deriving DecidableEq

/-- Outcome of running the task: the Python function either returns a string
or lets an exception propagate. -/
inductive TaskOutcome where
  | returned (s : String)
  | raised (e : String)
deriving DecidableEq

/-- Observable state after running `send_booking_confirmation_email`: the
mail calls made, the final contents of the log file (a list of lines, the
file is opened in append mode), and how the task ended. -/
structure TaskResult where
  mailCalls : List MailCall
  log : List String
  outcome : TaskOutcome
deriving DecidableEq

/-- Embeds the Celery task `send_booking_confirmation_email` from
`listings/tasks.py`. `send_mail` is the mail collaborator (which may raise);
`log` is the prior contents of `/tmp/booking_email_log.txt` as lines; `now`
stands for the string form of `datetime.now()`. If `send_mail` raises, the
exception propagates before the log append and before the return. -/
def send_booking_confirmation_email (send_mail : MailCall → MailResult)
    (log : List String) (now : String) (to_email : String) (booking_id : Nat) :
    TaskResult :=
  let subject := "Booking Confirmation #" ++ toString booking_id
  let message := "Your booking with ID " ++ toString booking_id ++ " has been confirmed!"
  let from_email := "noreply@alxtravelapp.com"
  let call : MailCall := ⟨subject, message, from_email, [to_email]⟩
  match send_mail call with
  | .raised e => ⟨[call], log, .raised e⟩
  | .ok =>
    let log_message := now ++ " - Email sent to " ++ to_email ++ " for booking "
      ++ toString booking_id ++ "\n"
    ⟨[call], log ++ [log_message], .returned ("Email sent to " ++ to_email)⟩

/-! Concrete fixtures used by witnesses and counterexamples. -/

/-- A gateway that always answers with nested status "success". -/
def gSuccess : Option String → GatewayResp := fun _ => ⟨some ⟨some "success"⟩⟩

/-- A gateway that always answers with an empty object (no "data" key). -/
def gEmpty : Option String → GatewayResp := fun _ => ⟨none⟩

/-- A sample pending payment row. -/
def pTX123 : Payment := ⟨7, "TX123", "Pending", 100⟩

/-- A one-row payment table. -/
def dbTX123 : List Payment := [pTX123]

/-- A second pending payment row with a distinct id. -/
def pTX999 : Payment := ⟨8, "TX999", "Pending", 5⟩

/-- A two-row payment table with distinct ids. -/
def dbTwo : List Payment := [pTX123, pTX999]

/-- A mail collaborator that always succeeds. -/
def mailOk : MailCall → MailResult := fun _ => .ok

/-- A mail collaborator that always raises. -/
def mailBoom : MailCall → MailResult := fun _ => .raised "boom"

/-! Shared unfolding and bookkeeping lemmas. -/

/-- Unfolding lemma for the branch in which the lookup finds a row. -/
theorem verify_payment_view_found (gateway : Option String → GatewayResp)
    (db : List Payment) (req : VerifyRequest) (p : Payment)
    (h : db.find? (fun q => some q.booking_reference == req.tx_ref) = some p) :
    verify_payment_view gateway db req =
      ⟨savePayment db { p with status := settledStatus (extractStatus (gateway req.tx_ref)) },
       [req.tx_ref],
       [⟨req.email.getD "user@example.com", req.tx_ref, p.amount,
         settledStatus (extractStatus (gateway req.tx_ref))⟩],
       ⟨200, [("status", settledStatus (extractStatus (gateway req.tx_ref)))]⟩⟩ := by
  unfold verify_payment_view
  rw [h]

/-- Unfolding lemma for the branch in which the lookup finds nothing. -/
theorem verify_payment_view_not_found (gateway : Option String → GatewayResp)
    (db : List Payment) (req : VerifyRequest)
    (h : db.find? (fun q => some q.booking_reference == req.tx_ref) = none) :
    verify_payment_view gateway db req =
      ⟨db, [], [], ⟨404, [("error", "Payment not found")]⟩⟩ := by
  unfold verify_payment_view
  rw [h]

/-- The settled status is "Completed" exactly on the gateway status "success". -/
theorem settledStatus_eq_completed (s : String) :
    settledStatus s = "Completed" ↔ s = "success" := by
  unfold settledStatus
  by_cases hs : s = "success" <;> simp [hs]

/-- The settled status is "Failed" whenever the gateway status is not "success". -/
theorem settledStatus_eq_failed (s : String) (hs : ¬ s = "success") :
    settledStatus s = "Failed" := by
  unfold settledStatus
  simp [hs]

/-- Saving a cons cell, unfolded. -/
theorem savePayment_cons (q : Payment) (t : List Payment) (p : Payment) :
    savePayment (q :: t) p = (if q.id == p.id then p else q) :: savePayment t p := rfl

/-- After saving a status-only update of the row the reference lookup found,
the same lookup finds exactly the updated row. -/
theorem find?_savePayment_status (ref : Option String) (s : String) :
    ∀ (db : List Payment) (p : Payment),
      db.find? (fun q => some q.booking_reference == ref) = some p →
      (savePayment db { p with status := s }).find?
        (fun q => some q.booking_reference == ref) = some { p with status := s }
  | [], p, h => by simp at h
  | q :: t, p, h => by
    by_cases hq : (some q.booking_reference == ref) = true
    · rw [List.find?_cons_of_pos (p := fun (x : Payment) => some x.booking_reference == ref) _ hq] at h
      obtain rfl : q = p := Option.some.inj h
      rw [savePayment_cons, if_pos (by simp)]
      exact List.find?_cons_of_pos _ hq
    · rw [List.find?_cons_of_neg (p := fun (x : Payment) => some x.booking_reference == ref) _ hq] at h
      rw [savePayment_cons]
      by_cases hid : (q.id == ({ p with status := s } : Payment).id) = true
      · rw [if_pos hid]
        have hp := List.find?_some h
        exact List.find?_cons_of_pos _ hp
      · rw [if_neg hid,
          List.find?_cons_of_neg (p := fun (x : Payment) => some x.booking_reference == ref) _ hq]
        exact find?_savePayment_status ref s t p h

/-- Saving the same row twice is the same as saving it once. -/
theorem savePayment_savePayment (db : List Payment) (p : Payment) :
    savePayment (savePayment db p) p = savePayment db p := by
  induction db with
  | nil => rfl
  | cons q t ih =>
    by_cases hid : (q.id == p.id) = true
    · rw [savePayment_cons, if_pos hid, savePayment_cons, if_pos (by simp), ih]
    · rw [savePayment_cons, if_neg hid, savePayment_cons, if_neg hid, ih]

/-! Theorems for the claims. -/

/-- C1: for every verification request whose reference matches a Payment row,
the extracted gateway status determines the outcome: the row's status is set
to "Completed" exactly when the extracted status is "success" and to "Failed"
otherwise, the row is persisted unconditionally, and the JSON response is
the object with the single key "status" mapped to the new status. -/
theorem C1_matched_outcome (gateway : Option String → GatewayResp)
    (db : List Payment) (req : VerifyRequest) (p : Payment)
    (h : db.find? (fun q => some q.booking_reference == req.tx_ref) = some p) :
    (verify_payment_view gateway db req).db =
      savePayment db { p with status := settledStatus (extractStatus (gateway req.tx_ref)) } ∧
    (verify_payment_view gateway db req).response =
      ⟨200, [("status", settledStatus (extractStatus (gateway req.tx_ref)))]⟩ ∧
    (settledStatus (extractStatus (gateway req.tx_ref)) = "Completed"
      ↔ extractStatus (gateway req.tx_ref) = "success") ∧
    (¬ extractStatus (gateway req.tx_ref) = "success" →
      settledStatus (extractStatus (gateway req.tx_ref)) = "Failed") := by
  rw [verify_payment_view_found gateway db req p h]
  exact ⟨rfl, rfl, settledStatus_eq_completed _, settledStatus_eq_failed _⟩

/-- Witness for C1 at a concrete matched row and a "success" gateway. -/
theorem C1_matched_outcome_witness :
    (dbTX123.find? (fun q => some q.booking_reference ==
        (VerifyRequest.mk (some "TX123") none).tx_ref) = some pTX123) ∧
    ((verify_payment_view gSuccess dbTX123 ⟨some "TX123", none⟩).db =
      savePayment dbTX123 { pTX123 with status := settledStatus (extractStatus (gSuccess (some "TX123"))) } ∧
    (verify_payment_view gSuccess dbTX123 ⟨some "TX123", none⟩).response =
      ⟨200, [("status", settledStatus (extractStatus (gSuccess (some "TX123"))))]⟩ ∧
    (settledStatus (extractStatus (gSuccess (some "TX123"))) = "Completed"
      ↔ extractStatus (gSuccess (some "TX123")) = "success") ∧
    (¬ extractStatus (gSuccess (some "TX123")) = "success" →
      settledStatus (extractStatus (gSuccess (some "TX123"))) = "Failed")) :=
  ⟨by decide, C1_matched_outcome gSuccess dbTX123 ⟨some "TX123", none⟩ pTX123 (by decide)⟩

/-- C2: for every verification request whose reference matches no Payment row,
the response is a 404 with body exactly the object error ↦ "Payment not found",
no Payment record is mutated, the gateway is not called, and no job is
enqueued. -/
theorem C2_not_found (gateway : Option String → GatewayResp)
    (db : List Payment) (req : VerifyRequest)
    (h : db.find? (fun q => some q.booking_reference == req.tx_ref) = none) :
    verify_payment_view gateway db req =
      ⟨db, [], [], ⟨404, [("error", "Payment not found")]⟩⟩ :=
  verify_payment_view_not_found gateway db req h

/-- Witness for C2 on an empty table. -/
theorem C2_not_found_witness :
    (([] : List Payment).find? (fun q => some q.booking_reference ==
        (VerifyRequest.mk (some "TXMISSING") none).tx_ref) = none) ∧
    verify_payment_view gSuccess [] ⟨some "TXMISSING", none⟩ =
      ⟨[], [], [], ⟨404, [("error", "Payment not found")]⟩⟩ :=
  ⟨by decide, C2_not_found gSuccess [] ⟨some "TXMISSING", none⟩ (by decide)⟩

/-- C3 counterexample: a verification call whose reference matches no row
enqueues no payment-confirmation job at all, so it is not the case that
exactly one job is enqueued after every verification call. -/
theorem C3_counterexample :
    ¬ ((verify_payment_view gSuccess [] ⟨some "TXMISSING", none⟩).jobs.length = 1) := by
  decide

/-- C3 (amended): after every verification call that finds a matching Payment
row, exactly one payment-confirmation job is enqueued, its payload is (the
request's email defaulting to "user@example.com", the tx_ref, the row's
amount, the row's final persisted status), and the status in the JSON
response equals the status in that payload. -/
theorem C3_one_job_when_matched (gateway : Option String → GatewayResp)
    (db : List Payment) (req : VerifyRequest) (p : Payment)
    (h : db.find? (fun q => some q.booking_reference == req.tx_ref) = some p) :
    (verify_payment_view gateway db req).jobs =
      [⟨req.email.getD "user@example.com", req.tx_ref, p.amount,
        settledStatus (extractStatus (gateway req.tx_ref))⟩] ∧
    (verify_payment_view gateway db req).db =
      savePayment db { p with status := settledStatus (extractStatus (gateway req.tx_ref)) } ∧
    (verify_payment_view gateway db req).response =
      ⟨200, [("status", settledStatus (extractStatus (gateway req.tx_ref)))]⟩ := by
  rw [verify_payment_view_found gateway db req p h]
  exact ⟨rfl, rfl, rfl⟩

/-- Witness for the amended C3 at a concrete matched row. -/
theorem C3_one_job_when_matched_witness :
    (dbTX123.find? (fun q => some q.booking_reference ==
        (VerifyRequest.mk (some "TX123") (some "a@b.co")).tx_ref) = some pTX123) ∧
    ((verify_payment_view gSuccess dbTX123 ⟨some "TX123", some "a@b.co"⟩).jobs =
      [⟨(VerifyRequest.mk (some "TX123") (some "a@b.co")).email.getD "user@example.com",
        some "TX123", pTX123.amount, settledStatus (extractStatus (gSuccess (some "TX123")))⟩] ∧
    (verify_payment_view gSuccess dbTX123 ⟨some "TX123", some "a@b.co"⟩).db =
      savePayment dbTX123 { pTX123 with status := settledStatus (extractStatus (gSuccess (some "TX123"))) } ∧
    (verify_payment_view gSuccess dbTX123 ⟨some "TX123", some "a@b.co"⟩).response =
      ⟨200, [("status", settledStatus (extractStatus (gSuccess (some "TX123"))))]⟩) :=
  ⟨by decide, C3_one_job_when_matched gSuccess dbTX123 ⟨some "TX123", some "a@b.co"⟩ pTX123 (by decide)⟩

/-- C4: calling verification twice in succession on the same request, with the
gateway returning the same response both times (the same gateway function),
leaves the database after the second call equal to the database after the
first call (in particular the Payment's status is unchanged), and the second
response equals the first: the repeat is stable, not a failure. -/
theorem C4_idempotent (gateway : Option String → GatewayResp)
    (db : List Payment) (req : VerifyRequest) :
    (verify_payment_view gateway (verify_payment_view gateway db req).db req).db
      = (verify_payment_view gateway db req).db ∧
    (verify_payment_view gateway (verify_payment_view gateway db req).db req).response
      = (verify_payment_view gateway db req).response := by
  cases h : db.find? (fun q => some q.booking_reference == req.tx_ref) with
  | none =>
    have h1 := verify_payment_view_not_found gateway db req h
    simp [h1]
  | some p =>
    have h1 := verify_payment_view_found gateway db req p h
    have h2 := find?_savePayment_status req.tx_ref
      (settledStatus (extractStatus (gateway req.tx_ref))) db p h
    have h3 := verify_payment_view_found gateway
      (savePayment db { p with status := settledStatus (extractStatus (gateway req.tx_ref)) }) req
      { p with status := settledStatus (extractStatus (gateway req.tx_ref)) } h2
    simp only [h1]
    simp only [h3]
    simp [savePayment_savePayment db]

/-- C5: for every successful booking creation, the trace of side effects is
exactly: first the booking record is saved, then one booking-confirmation job
is enqueued with arguments (the created booking's customer email, the created
booking's id); nothing else happens. -/
theorem C5_perform_create (b : Booking) :
    perform_create b = [.saveBooking b, .enqueueBookingEmail b.customer.email b.id] ∧
    (perform_create b).filter
        (fun e => match e with | .enqueueBookingEmail _ _ => true | _ => false)
      = [.enqueueBookingEmail b.customer.email b.id] :=
  ⟨rfl, rfl⟩

/-- C6: whenever the mail collaborator returns normally, one invocation of
`send_booking_confirmation_email to_email booking_id` calls it exactly once
with subject "Booking Confirmation #<booking_id>", the fixed message
mentioning booking_id, sender "noreply@alxtravelapp.com" and recipient list
[to_email]; appends exactly one line
"<now> - Email sent to <to_email> for booking <booking_id>\n" to the log
file; and returns the string "Email sent to <to_email>". -/
theorem C6_task_effects (send_mail : MailCall → MailResult)
    (log : List String) (now : String) (to_email : String) (booking_id : Nat)
    (h : send_mail ⟨"Booking Confirmation #" ++ toString booking_id,
        "Your booking with ID " ++ toString booking_id ++ " has been confirmed!",
        "noreply@alxtravelapp.com", [to_email]⟩ = .ok) :
    send_booking_confirmation_email send_mail log now to_email booking_id =
      ⟨[⟨"Booking Confirmation #" ++ toString booking_id,
         "Your booking with ID " ++ toString booking_id ++ " has been confirmed!",
         "noreply@alxtravelapp.com", [to_email]⟩],
       log ++ [now ++ " - Email sent to " ++ to_email ++ " for booking "
         ++ toString booking_id ++ "\n"],
       .returned ("Email sent to " ++ to_email)⟩ := by
  simp only [send_booking_confirmation_email]
  rw [h]

/-- Witness for C6 with an always-succeeding mail collaborator. -/
theorem C6_task_effects_witness :
    (mailOk ⟨"Booking Confirmation #" ++ toString 5,
        "Your booking with ID " ++ toString 5 ++ " has been confirmed!",
        "noreply@alxtravelapp.com", ["x@y.z"]⟩ = .ok) ∧
    send_booking_confirmation_email mailOk ["old line"] "2025-01-01 00:00:00" "x@y.z" 5 =
      ⟨[⟨"Booking Confirmation #" ++ toString 5,
         "Your booking with ID " ++ toString 5 ++ " has been confirmed!",
         "noreply@alxtravelapp.com", ["x@y.z"]⟩],
       ["old line"] ++ ["2025-01-01 00:00:00" ++ " - Email sent to " ++ "x@y.z"
         ++ " for booking " ++ toString 5 ++ "\n"],
       .returned ("Email sent to " ++ "x@y.z")⟩ :=
  ⟨rfl, C6_task_effects mailOk ["old line"] "2025-01-01 00:00:00" "x@y.z" 5 rfl⟩

/-- C7: for every verification request that omits the email query parameter
and whose reference matches a row, the recipient passed to the
payment-confirmation job is "user@example.com"; in particular, with reference
"TX123", the row (booking_reference "TX123", status "Pending", amount 100)
and a gateway answering nested status "success", exactly one job
("user@example.com", "TX123", 100, "Completed") is enqueued. -/
theorem C7_default_email (gateway : Option String → GatewayResp)
    (db : List Payment) (tx : Option String) (p : Payment)
    (h : db.find? (fun q => some q.booking_reference == tx) = some p) :
    (verify_payment_view gateway db ⟨tx, none⟩).jobs.map PaymentEmailJob.email
      = ["user@example.com"] ∧
    (verify_payment_view gSuccess dbTX123 ⟨some "TX123", none⟩).jobs
      = [⟨"user@example.com", some "TX123", 100, "Completed"⟩] := by
  constructor
  · rw [verify_payment_view_found gateway db ⟨tx, none⟩ p h]
    rfl
  · decide

/-- Witness for C7 at the concrete scenario row. -/
theorem C7_default_email_witness :
    (dbTX123.find? (fun q => some q.booking_reference == some "TX123") = some pTX123) ∧
    ((verify_payment_view gSuccess dbTX123 ⟨some "TX123", none⟩).jobs.map PaymentEmailJob.email
      = ["user@example.com"] ∧
    (verify_payment_view gSuccess dbTX123 ⟨some "TX123", none⟩).jobs
      = [⟨"user@example.com", some "TX123", 100, "Completed"⟩]) :=
  ⟨by decide, C7_default_email gSuccess dbTX123 (some "TX123") pTX123 (by decide)⟩

/-- C8 counterexample: with the tx_ref parameter absent, the view does not
raise at all: `request.GET.get("tx_ref")` yields None, the lookup finds no
row, and the call returns the handled 404 "Payment not found" response with
the table untouched, no gateway call and no job. -/
theorem C8_counterexample :
    verify_payment_view gSuccess dbTX123 ⟨none, none⟩ =
      ⟨dbTX123, [], [], ⟨404, [("error", "Payment not found")]⟩⟩ := by
  decide

/-- C8 (amended): a request with tx_ref absent is not a missing-key error:
`.get` returns None, the reference-None lookup matches no Payment row, and
for every database and gateway the view returns the handled 404
"Payment not found" response, mutating nothing and enqueueing nothing. -/
theorem C8_absent_tx_ref (gateway : Option String → GatewayResp)
    (db : List Payment) (email : Option String) :
    verify_payment_view gateway db ⟨none, email⟩ =
      ⟨db, [], [], ⟨404, [("error", "Payment not found")]⟩⟩ := by
  apply verify_payment_view_not_found
  rw [List.find?_eq_none]
  intro q _
  simp

/-- C9: a verification call mutates at most the status field of Payment rows:
when row ids are unique (the primary-key invariant), every row's id,
booking_reference and amount are the same after the call as before it, for
every request and every gateway response. -/
theorem C9_frame (gateway : Option String → GatewayResp)
    (db : List Payment) (req : VerifyRequest)
    (hids : (db.map Payment.id).Nodup) :
    ((verify_payment_view gateway db req).db).map
        (fun q => (q.id, q.booking_reference, q.amount))
      = db.map (fun q => (q.id, q.booking_reference, q.amount)) := by
  cases h : db.find? (fun q => some q.booking_reference == req.tx_ref) with
  | none =>
    rw [verify_payment_view_not_found gateway db req h]
  | some p =>
    rw [verify_payment_view_found gateway db req p h]
    unfold savePayment
    rw [List.map_map]
    apply List.map_congr_left
    intro q hq
    simp only [Function.comp_apply]
    by_cases hid : (q.id == ({ p with status := settledStatus (extractStatus (gateway req.tx_ref)) } : Payment).id) = true
    · have hqp : q = p := by
        apply List.inj_on_of_nodup_map hids hq (List.mem_of_find?_eq_some h)
        exact beq_iff_eq.mp hid
      subst hqp
      simp [Function.comp, hid]
    · simp [Function.comp, hid]

/-- Witness for C9 on a concrete two-row table with distinct ids. -/
theorem C9_frame_witness :
    ((dbTwo.map Payment.id).Nodup) ∧
    ((verify_payment_view gEmpty dbTwo ⟨some "TX123", none⟩).db).map
        (fun (q : Payment) => (q.id, q.booking_reference, q.amount))
      = dbTwo.map (fun (q : Payment) => (q.id, q.booking_reference, q.amount)) :=
  ⟨by decide, C9_frame gEmpty dbTwo ⟨some "TX123", none⟩ (by decide)⟩

/-- C10: the log line is appended only after the mail-send call returns: in
every invocation in which the mail collaborator raises, the exception
propagates, the log file is unchanged (no line appended) and no confirmation
string is returned. -/
theorem C10_mail_raises (send_mail : MailCall → MailResult)
    (log : List String) (now : String) (to_email : String) (booking_id : Nat)
    (e : String)
    (h : send_mail ⟨"Booking Confirmation #" ++ toString booking_id,
        "Your booking with ID " ++ toString booking_id ++ " has been confirmed!",
        "noreply@alxtravelapp.com", [to_email]⟩ = .raised e) :
    send_booking_confirmation_email send_mail log now to_email booking_id =
      ⟨[⟨"Booking Confirmation #" ++ toString booking_id,
         "Your booking with ID " ++ toString booking_id ++ " has been confirmed!",
         "noreply@alxtravelapp.com", [to_email]⟩],
       log, .raised e⟩ := by
  simp only [send_booking_confirmation_email]
  rw [h]

/-- Witness for C10 with an always-raising mail collaborator. -/
theorem C10_mail_raises_witness :
    (mailBoom ⟨"Booking Confirmation #" ++ toString 5,
        "Your booking with ID " ++ toString 5 ++ " has been confirmed!",
        "noreply@alxtravelapp.com", ["x@y.z"]⟩ = .raised "boom") ∧
    send_booking_confirmation_email mailBoom ["old line"] "2025-01-01 00:00:00" "x@y.z" 5 =
      ⟨[⟨"Booking Confirmation #" ++ toString 5,
         "Your booking with ID " ++ toString 5 ++ " has been confirmed!",
         "noreply@alxtravelapp.com", ["x@y.z"]⟩],
       ["old line"], .raised "boom"⟩ :=
  ⟨rfl, C10_mail_raises mailBoom ["old line"] "2025-01-01 00:00:00" "x@y.z" 5 "boom" rfl⟩
